import Mathlib

/-!
Verification development for the shortfactory template/compositing core.

The Python source (src/templates/*.py, src/utils/text_effects.py) is shallowly
embedded: pure functions become Lean functions, Python `dict` lookups become
`Option` field access (with `Except` for the raising `d[k]` form), and the
moviepy clip values manipulated by the code are represented by the inductive
syntax tree `MClip` of the constructor/method calls the code performs.

moviepy itself is not part of this repository; its compositing semantics are
modelled from the spec: concatenation of clips yields a timeline whose
duration is the sum of the clip durations, a composite spans to the latest
end among its layers that have a determined end (full-frame overlay layers
without a set duration conform to the composite), and `set_start`/`set_end`/
`set_duration` fix a clip's time window.  Machine floats in the source are
modelled as exact rationals (and reals where `sin`/`sqrt` appear).
-/

/-- Python exceptions that the embedded code can raise. -/
inductive PyErr where
  | keyError (k : String)
  | indexError
  | typeError
  deriving DecidableEq, Repr

/-- A Python position value as passed to moviepy `set_position`:
either a bare string anchor, a `('center', y)` / `('left', y)` pair, or a
numeric `(x, y)` pair.  The variant `centerAtNoisy y` stands for the
`glitch` effect's `('center', y + 5·randn())` sample, whose random jitter
has no exact value. -/
inductive PyPos where
  | named (s : String)
  | centerAt (y : ℝ)
  | centerAtNoisy (y : ℝ)
  | leftAt (y : ℝ)
  | xy (x y : ℝ)

/-- The optional style dictionary unpacked as `**style` into
`create_caption`; absent keys fall back to `create_caption`'s defaults. -/
structure Style where
  fontsize : Option ℚ := none
  color : Option String := none
  font : Option String := none
  strokeColor : Option String := none
  strokeWidth : Option ℚ := none

/-- A caption configuration dict handed to `add_captions_to_video`.
Fields are `Option` because a Python dict may lack any key; the code reads
`text`, `start`, `end` with raising `cap[...]` and `position`, `style` with
defaulting `cap.get(...)`. -/
structure CaptionDict where
  text : Option String := none
  start : Option ℚ := none
  stop : Option ℚ := none
  position : Option PyPos := none
  style : Option Style := none

/-- The `text_content` mapping with its recognized keys. -/
structure TextContent where
  title : Option String := none
  intro : Option String := none
  main : Option String := none
  outro : Option String := none
  captions : Option (List String) := none

/-- An audio track handle (opaque: `set_audio` only attaches it). -/
abbrev Audio := String

/-- Syntax tree of the moviepy clip expressions the source constructs.
Each constructor is one constructor/method call appearing in the code;
time-varying arguments (lambdas over `t`) are carried as functions. -/
inductive MClip where
  /-- A source `VideoFileClip` with known duration and frame size. -/
  | vfclip (duration : ℚ) (w h : ℤ)
  /-- `ColorClip(size, color)`: no duration of its own. -/
  | colorClip (size : ℤ × ℤ) (color : String)
  /-- `TextClip(text, fontsize, color, font, stroke_color, stroke_width,
  size, method='caption', align='center')`: no duration of its own.
  `strokeColor = none` is moviepy's `stroke_color=None` default, used when
  `create_title` passes no stroke arguments. -/
  | textClip (text : String) (size : ℤ × ℤ) (fontsize : ℚ)
      (color font : String) (strokeColor : Option String) (strokeWidth : ℚ)
  | fadein (c : MClip) (d : ℚ)
  | fadeout (c : MClip) (d : ℚ)
  /-- `clip.resize(width=w)`. -/
  | resizeWidth (c : MClip) (w : ℚ)
  /-- `clip.resize(lambda t: scale)`. -/
  | resizeFn (c : MClip) (f : ℚ → ℝ)
  | setPos (c : MClip) (p : PyPos)
  | setPosFn (c : MClip) (f : ℚ → PyPos)
  | rotateFn (c : MClip) (f : ℚ → ℝ)
  /-- `clip.set_mask(lambda t: frame)`: the mask frame as value at
  `(row, column)`. -/
  | setMaskFn (c : MClip) (f : ℚ → ℕ → ℕ → ℝ)
  | setStart (c : MClip) (t : ℚ)
  | setEnd (c : MClip) (t : ℚ)
  | setDuration (c : MClip) (d : ℚ)
  | setOpacity (c : MClip) (o : ℚ)
  | setAudio (c : MClip) (a : Audio)
  /-- `CompositeVideoClip(layers)` (first layer is the base track). -/
  | composite (layers : List MClip)
  /-- `concatenate_videoclips(clips)` (default chain method). -/
  | concatChain (cs : List MClip)
  /-- `concatenate_videoclips(clips, method="compose", transition=f)` as the
  templates call it, the boundary blend weight carried as `f`. -/
  | concatCompose (cs : List MClip) (f : ℚ → ℝ)

namespace MClip

/-- Start time of a clip: 0 unless `set_start` fixed it. -/
def startOf : MClip → ℚ
  | vfclip _ _ _ => 0
  | colorClip _ _ => 0
  | textClip _ _ _ _ _ _ _ => 0
  | fadein c _ => c.startOf
  | fadeout c _ => c.startOf
  | resizeWidth c _ => c.startOf
  | resizeFn c _ => c.startOf
  | setPos c _ => c.startOf
  | setPosFn c _ => c.startOf
  | rotateFn c _ => c.startOf
  | setMaskFn c _ => c.startOf
  | setStart _ t => t
  | setEnd c _ => c.startOf
  | setDuration c _ => c.startOf
  | setOpacity c _ => c.startOf
  | setAudio c _ => c.startOf
  | composite _ => 0
  | concatChain _ => 0
  | concatCompose _ _ => 0

mutual

/-- Modelled from the spec: duration semantics of the moviepy operations the
source uses.  A source clip knows its duration; bare color/text clips have
none until `set_duration`/`set_end`; transforms preserve duration;
concatenation sums the durations of its parts; a composite spans to the
latest end among layers with a determined end (layers with none, i.e.
full-frame overlays, conform to the composite). -/
def durationOf : MClip → Option ℚ
  | vfclip d _ _ => some d
  | colorClip _ _ => none
  | textClip _ _ _ _ _ _ _ => none
  | fadein c _ => c.durationOf
  | fadeout c _ => c.durationOf
  | resizeWidth c _ => c.durationOf
  | resizeFn c _ => c.durationOf
  | setPos c _ => c.durationOf
  | setPosFn c _ => c.durationOf
  | rotateFn c _ => c.durationOf
  | setMaskFn c _ => c.durationOf
  | setStart c _ => c.durationOf
  | setEnd c t => some (t - c.startOf)
  | setDuration _ d => some d
  | setOpacity c _ => c.durationOf
  | setAudio c _ => c.durationOf
  | composite layers => latestEnd layers
  | concatChain cs => sumDurations cs
  | concatCompose cs _ => sumDurations cs

/-- Latest end among layers that have a determined end (`none` if no layer
has one). -/
def latestEnd : List MClip → Option ℚ
  | [] => none
  | l :: ls =>
      match durationOf l, latestEnd ls with
      | none, r => r
      | some d, none => some (l.startOf + d)
      | some d, some m => some (max (l.startOf + d) m)

/-- Sum of the durations of a list of clips; `none` as soon as one is
undetermined. -/
def sumDurations : List MClip → Option ℚ
  | [] => some 0
  | c :: cs =>
      match durationOf c, sumDurations cs with
      | some d, some s => some (d + s)
      | _, _ => none

end

mutual

/-- Frame width observer (`clip.w`), following moviepy: text/color clips
carry their construction size, `resize(width=w)` fixes the width, a
composite takes its first layer's size, a concatenation the maximum. -/
def w : MClip → ℤ
  | vfclip _ w _ => w
  | colorClip sz _ => sz.1
  | textClip _ sz _ _ _ _ _ => sz.1
  | fadein c _ => c.w
  | fadeout c _ => c.w
  | resizeWidth _ wq => ⌊wq⌋
  | resizeFn c _ => c.w
  | setPos c _ => c.w
  | setPosFn c _ => c.w
  | rotateFn c _ => c.w
  | setMaskFn c _ => c.w
  | setStart c _ => c.w
  | setEnd c _ => c.w
  | setDuration c _ => c.w
  | setOpacity c _ => c.w
  | setAudio c _ => c.w
  | composite (l :: _) => l.w
  | composite [] => 0
  | concatChain cs => maxW cs
  | concatCompose cs _ => maxW cs

/-- Maximum width over a list of clips. -/
def maxW : List MClip → ℤ
  | [] => 0
  | c :: cs => max c.w (maxW cs)

end

mutual

/-- Frame height observer (`clip.h`), mirroring `MClip.w`. -/
def h : MClip → ℤ
  | vfclip _ _ h => h
  | colorClip sz _ => sz.2
  | textClip _ sz _ _ _ _ _ => sz.2
  | fadein c _ => c.h
  | fadeout c _ => c.h
  | resizeWidth c _ => c.h
  | resizeFn c _ => c.h
  | setPos c _ => c.h
  | setPosFn c _ => c.h
  | rotateFn c _ => c.h
  | setMaskFn c _ => c.h
  | setStart c _ => c.h
  | setEnd c _ => c.h
  | setDuration c _ => c.h
  | setOpacity c _ => c.h
  | setAudio c _ => c.h
  | composite (l :: _) => l.h
  | composite [] => 0
  | concatChain cs => maxH cs
  | concatCompose cs _ => maxH cs

/-- Maximum height over a list of clips. -/
def maxH : List MClip → ℤ
  | [] => 0
  | c :: cs => max c.h (maxH cs)

end

/-- `clip.size` as the `(w, h)` pair. -/
def size (c : MClip) : ℤ × ℤ := (c.w, c.h)

end MClip

/-- Raising Python dict access `d[k]`: `KeyError` when the key is absent. -/
def dictGet (o : Option α) (k : String) : Except PyErr α :=
  match o with
  | some v => Except.ok v
  | none => Except.error (.keyError k)

/-- `np.linspace a b n` sampled at index `i`: `n` evenly spaced values from
`a` to `b` inclusive; a single sample is `a` itself. -/
def linspace (a b : ℚ) (n : ℕ) (i : ℕ) : ℚ :=
  if n ≤ 1 then a else a + (b - a) * i / (n - 1)

/-- The vignette mask frame of `create_overlay` at pixel `(row j, col i)`:
`np.clip(1 - np.sqrt(X**2 + Y**2), 0, 1)` over the meshgrid of
`np.linspace(-1, 1, width)` and `np.linspace(-1, 1, height)`. -/
noncomputable def vignetteMask (w h : ℕ) (j i : ℕ) : ℝ :=
  min (max (1 - Real.sqrt (((linspace (-1) 1 w i : ℝ)) ^ 2
    + ((linspace (-1) 1 h j : ℝ)) ^ 2)) 0) 1

/-- The gradient mask frame of `create_overlay` at row `j`:
`np.linspace(0, 1, height)[:, np.newaxis] * np.ones((height, width))`
is constant along each row. -/
def gradientMaskVal (h : ℕ) (j : ℕ) : ℚ :=
  linspace 0 1 h j

namespace TextEffects

/-- `TextEffects.create_caption`: builds the `TextClip` with the given
parameters; keys absent from the unpacked `**style` fall back to the Python
keyword defaults (`fontsize=30, color='white', font='Arial',
stroke_color='black', stroke_width=2`).  The source performs no validation
of `text` or `size`. -/
def createCaption (text : String) (size : ℤ × ℤ) (style : Style) : MClip :=
  .textClip text size (style.fontsize.getD 30) (style.color.getD "white")
    (style.font.getD "Arial") (some (style.strokeColor.getD "black"))
    (style.strokeWidth.getD 2)

/-- `TextEffects.create_title`: a `TextClip` (no stroke arguments)
composited over a translucent `ColorClip` background plate. -/
def createTitle (text : String) (size : ℤ × ℤ) (fontsize : ℚ := 50)
    (color : String := "white") (font : String := "Arial-Bold")
    (bgColor : String := "black") (bgOpacity : ℚ := 1/2) : MClip :=
  let txt := MClip.textClip text size fontsize color font none 1
  let bg := (MClip.colorClip size bgColor).setOpacity bgOpacity
  .composite [bg, txt]

/-- `TextEffects.animate_text`: dispatch on the effect name through the
`effects` dict; `effects.get(effect, effects['fade'])` makes any name that
is not a key behave as `fade`.  The `glitch` branch samples
`np.random.randn()`, represented by `PyPos.centerAtNoisy`.  Python's float
`%` is `t - 0.2 * ⌊t / 0.2⌋` on the rationals here. -/
noncomputable def animateText (clip : MClip) (effect : String := "fade")
    (duration : ℚ := 3) (fadeDuration : ℚ := 1/2) : MClip :=
  if effect = "fade" then
    (clip.fadeout fadeDuration).fadein fadeDuration
  else if effect = "slide" then
    clip.setPosFn (fun t =>
      if t < duration / 2 then .centerAt ((50 : ℝ) + (t : ℝ) * 100)
      else .centerAt ((150 : ℝ) - ((t : ℝ) - (duration : ℝ) / 2) * 100))
  else if effect = "zoom" then
    clip.resizeFn (fun t =>
      1 + (3/10 : ℝ) * Real.sin ((t : ℝ) * 2 * Real.pi / (duration : ℝ)))
  else if effect = "typewriter" then
    clip.setMaskFn (fun t _j i =>
      if (i : ℚ) / (clip.w : ℚ) < t / duration then 1 else 0)
  else if effect = "bounce" then
    clip.setPosFn (fun t =>
      .centerAt ((100 : ℝ)
        + 50 * |Real.sin ((t : ℝ) * 2 * Real.pi / (duration : ℝ))|))
  else if effect = "rotate" then
    clip.rotateFn (fun t => 360 * (t : ℝ) / (duration : ℝ))
  else if effect = "wave" then
    clip.setPosFn (fun t =>
      .centerAt ((100 : ℝ)
        + 30 * Real.sin ((t : ℝ) * 4 * Real.pi / (duration : ℝ) + (clip.w : ℝ))))
  else if effect = "glitch" then
    clip.setPosFn (fun t =>
      if t - (1/5) * ⌊t / (1/5)⌋ < 1/10 then .centerAtNoisy 100
      else .centerAt 100)
  else if effect = "split" then
    clip.setPosFn (fun t =>
      if duration / 2 < t then .centerAt 100
      else if duration / 4 < t then .centerAt 100 else .leftAt 100)
  else
    (clip.fadeout fadeDuration).fadein fadeDuration

/-- One iteration of the caption loop of `add_captions_to_video`: reads
`cap['text']`, `cap['start']`, `cap['end']` (raising `KeyError` on a
missing key), defaults `position` to `'bottom'` and `style` to `{}`,
renders, times and anchors the caption, and appends it to the layer
list. -/
def captionStep (video : MClip) (acc : List MClip) (cap : CaptionDict) :
    Except PyErr (List MClip) := do
  let text ← dictGet cap.text "text"
  let start ← dictGet cap.start "start"
  let stop ← dictGet cap.stop "end"
  let position := cap.position.getD (.named "bottom")
  let style := cap.style.getD {}
  let txtClip := createCaption text video.size style
  let txtClip := (txtClip.setStart start).setEnd stop
  let txtClip :=
    match position with
    | .named "top" => txtClip.setPos (.centerAt 50)
    | .named "bottom" => txtClip.setPos (.centerAt ((video.h : ℝ) - 100))
    | p => txtClip.setPos p
  pure (acc ++ [txtClip])

/-- `TextEffects.add_captions_to_video`: starts from `clips = [video]`,
runs the caption loop, and returns the composite of the collected
layers. -/
def addCaptionsToVideo (video : MClip) (captions : List CaptionDict) :
    Except PyErr MClip := do
  let clips ← captions.foldlM (captionStep video) [video]
  pure (MClip.composite clips)

/-- `TextEffects.create_overlay`: a full-frame tint.  `gradient` masks the
tinted `ColorClip` with a vertical luminance ramp, `vignette` with the
radial falloff `vignetteMask`; any other style string yields the bare
tinted `ColorClip` (the `else` branch — no error for unknown styles). -/
noncomputable def createOverlay (size : ℤ × ℤ) (style : String := "gradient")
    (color : String := "black") (opacity : ℚ := 3/10) : MClip :=
  if style = "gradient" then
    ((MClip.colorClip size color).setOpacity opacity).setMaskFn
      (fun _t j _i => (gradientMaskVal size.2.toNat j : ℝ))
  else if style = "vignette" then
    ((MClip.colorClip size color).setOpacity opacity).setMaskFn
      (fun _t j i => vignetteMask size.1.toNat size.2.toNat j i)
  else
    (MClip.colorClip size color).setOpacity opacity

end TextEffects

/-- The configuration dict a template is constructed from.  Only the keys
the embedded code reads are represented; each is optional as a Python dict
key is. -/
structure TemplateConfig where
  dimensions : Option (ℤ × ℤ) := none
  duration : Option ℚ := none
  transitionDuration : Option ℚ := none
  textDuration : Option ℚ := none
  style : Option String := none

/-- The state `VideoTemplate.__init__` leaves on the instance. -/
structure VideoTemplate where
  width : ℤ
  height : ℤ
  duration : ℚ

/-- `VideoTemplate.__init__`: reads `config['dimensions'][0]` and `[1]`
(raising `KeyError` when absent) and `config.get('duration', 60)`.  No
validation of the values is performed. -/
def VideoTemplate.init (config : TemplateConfig) : Except PyErr VideoTemplate := do
  let dims ← dictGet config.dimensions "dimensions"
  pure { width := dims.1, height := dims.2,
         duration := config.duration.getD 60 }

/-- The caption configuration dicts `ModernTemplate.apply_template` builds
from `text_content['captions']`: caption `i` spans `[i*3, (i+1)*3)` at the
bottom anchor with the fixed modern style. -/
def modernCaptionSpecs (caps : List String) : List CaptionDict :=
  caps.enum.map (fun p =>
    { text := some p.2,
      start := some ((p.1 : ℚ) * 3),
      stop := some (((p.1 : ℚ) + 1) * 3),
      position := some (.named "bottom"),
      style := some { fontsize := some 40, color := some "white",
                      strokeColor := some "black", strokeWidth := some 2 } })

/-- `ModernTemplate.apply_template`: resize each clip to the template
width, fade in every clip but the first and fade out every clip but the
last, concatenate, optionally composite a zoomed title and the bottom
captions, attach the audio. -/
noncomputable def ModernTemplate.applyTemplate (self : VideoTemplate)
    (clips : List MClip) (audio : Audio) (text : TextContent) :
    Except PyErr MClip := do
  let processed := clips.enum.map (fun p =>
    let c := MClip.resizeWidth p.2 (self.width : ℚ)
    let c := if 0 < p.1 then c.fadein (1/2) else c
    let c := if p.1 < clips.length - 1 then c.fadeout (1/2) else c
    c)
  let video := MClip.concatChain processed
  let video :=
    match text.title with
    | some t =>
        let title := TextEffects.createTitle t (self.width, self.height) 60
        let title := (TextEffects.animateText title "zoom" 3).setDuration 3
        MClip.composite [video, title.setPos (.named "center")]
    | none => video
  let video ←
    match text.captions with
    | some caps => TextEffects.addCaptionsToVideo video (modernCaptionSpecs caps)
    | none => pure video
  pure (video.setAudio audio)

/-- The caption configuration dicts `MinimalTemplate.apply_template`
builds: caption `i` spans `[i*3, (i+1)*3)` at `('center', height - 80)`
with the minimal style. -/
def minimalCaptionSpecs (height : ℤ) (caps : List String) : List CaptionDict :=
  caps.enum.map (fun p =>
    { text := some p.2,
      start := some ((p.1 : ℚ) * 3),
      stop := some (((p.1 : ℚ) + 1) * 3),
      position := some (.centerAt ((height : ℝ) - 80)),
      style := some { fontsize := some 30, color := some "white",
                      strokeWidth := some 0 } })

/-- `MinimalTemplate.apply_template`: resize and center each clip,
concatenate with the linear crossfade weight, optionally composite a faded
title and the captions, lay a gradient overlay over the frame, attach the
audio. -/
noncomputable def MinimalTemplate.applyTemplate (self : VideoTemplate)
    (clips : List MClip) (audio : Audio) (text : TextContent) :
    Except PyErr MClip := do
  let processed := clips.map (fun clip =>
    (MClip.resizeWidth clip (self.width : ℚ)).setPos (.named "center"))
  let video := MClip.concatCompose processed
    (fun t => min 1 (max 0 (2 * (t : ℝ))))
  let video :=
    match text.title with
    | some t =>
        let title := TextEffects.createCaption t (self.width, self.height)
          { fontsize := some 50, color := some "white", strokeWidth := some 0 }
        let title := (TextEffects.animateText title "fade" 2).setDuration 2
        MClip.composite [video, title.setPos (.centerAt 50)]
    | none => video
  let video ←
    match text.captions with
    | some caps =>
        TextEffects.addCaptionsToVideo video (minimalCaptionSpecs self.height caps)
    | none => pure video
  let overlay := TextEffects.createOverlay (self.width, self.height)
    "gradient" "black" (1/5)
  let video := MClip.composite [video, overlay]
  pure (video.setAudio audio)

/-- One animated caption clip of `DynamicTemplate.apply_template`:
caption `i` is rendered with the dynamic style, animated with
`['bounce', 'split', 'glitch', 'rotate'][i % 4]`, timed to
`[i*3, (i+1)*3)` and anchored at `('center', height - 150)`. -/
noncomputable def dynamicCaptionClip (self : VideoTemplate) (i : ℕ)
    (cap : String) : MClip :=
  let effects := ["bounce", "split", "glitch", "rotate"]
  let c := TextEffects.createCaption cap (self.width, self.height)
    { fontsize := some 40, color := some "white", strokeWidth := some 2 }
  let c := TextEffects.animateText c (effects.getD (i % effects.length) "fade") 3
  let c := (c.setStart ((i : ℚ) * 3)).setEnd (((i : ℚ) + 1) * 3)
  c.setPos (.centerAt ((self.height : ℝ) - 150))

/-- `DynamicTemplate.apply_template`: oversize and animate each clip
(position sway, zoom pulse, rotation on even indices — the closures
reference `clip.duration`, modelled by value), concatenate with the
sinusoidal blend weight, optionally composite a waved title and the
animated captions, lay a vignette overlay, attach the audio. -/
noncomputable def DynamicTemplate.applyTemplate (self : VideoTemplate)
    (clips : List MClip) (audio : Audio) (text : TextContent) :
    Except PyErr MClip := do
  let processed := clips.enum.map (fun p =>
    let cd : ℚ := (p.2.durationOf).getD 0
    let c := MClip.resizeWidth p.2 ((self.width : ℚ) * (11/10))
    let c := c.setPosFn (fun t =>
      .centerAt ((50 : ℝ) + 20 * Real.sin ((t : ℝ) * 2 * Real.pi / (cd : ℝ))))
    let c := c.resizeFn (fun t =>
      1 + (1/10 : ℝ) * Real.sin ((t : ℝ) * Real.pi / (cd : ℝ)))
    let c := if p.1 % 2 = 0 then
        c.rotateFn (fun t => 5 * Real.sin ((t : ℝ) * 2 * Real.pi / (cd : ℝ)))
      else c
    c)
  let video := MClip.concatCompose processed
    (fun t => |Real.sin (Real.pi * (t : ℝ))|)
  let video :=
    match text.title with
    | some t =>
        let title := TextEffects.createCaption t (self.width, self.height)
          { fontsize := some 60, color := some "white", strokeWidth := some 3 }
        let title := (TextEffects.animateText title "wave" 3).setDuration 3
        MClip.composite [video, title.setPos (.centerAt 100)]
    | none => video
  let video :=
    match text.captions with
    | some caps =>
        MClip.composite (video :: caps.enum.map (fun p =>
          dynamicCaptionClip self p.1 p.2))
    | none => video
  let overlay := TextEffects.createOverlay (self.width, self.height)
    "vignette" "black" (3/10)
  let video := MClip.composite [video, overlay]
  pure (video.setAudio audio)

/-- The state `AIDynamicTemplate.__init__` leaves on the instance. -/
structure AIDynamicTemplate where
  base : VideoTemplate
  transitionDuration : ℚ
  textDuration : ℚ
  style : String

/-- `AIDynamicTemplate.__init__`: the base initializer plus
`config.get('transition_duration', 0.5)`, `config.get('text_duration', 3.0)`
and `config.get('style', 'modern')`. -/
def AIDynamicTemplate.init (config : TemplateConfig) :
    Except PyErr AIDynamicTemplate := do
  let base ← VideoTemplate.init config
  pure { base := base,
         transitionDuration := config.transitionDuration.getD (1/2),
         textDuration := config.textDuration.getD 3,
         style := config.style.getD "modern" }

/-- `AIDynamicTemplate.create_section`: a title (for `position='center'`)
or caption overlay, animated for `text_duration`, anchored by the position
string, composited with a gradient (`style='modern'`) or vignette overlay
over the clip. -/
noncomputable def AIDynamicTemplate.createSection (self : AIDynamicTemplate)
    (clip : MClip) (txt : String) (position : String := "bottom")
    (effect : String := "fade") : MClip :=
  let txtClip :=
    if position = "center" then
      TextEffects.createTitle txt clip.size 60 "white" "Arial-Bold" "black" (3/5)
    else
      TextEffects.createCaption txt clip.size { fontsize := some 40 }
  let txtClip := TextEffects.animateText txtClip effect self.textDuration
  let txtClip :=
    if position = "top" then txtClip.setPos (.centerAt 50)
    else if position = "bottom" then
      txtClip.setPos (.centerAt ((clip.h : ℝ) - 100))
    else txtClip.setPos (.named "center")
  let overlay := TextEffects.createOverlay clip.size
    (if self.style = "modern" then "gradient" else "vignette") "black" (1/5)
  MClip.composite [clip, overlay, txtClip]

/-- `AIDynamicTemplate.apply_ai_transition`: masks the overlap of the two
clips with a sliding-edge (`style='modern'`) or circular reveal whose
progress is `t / transition_duration`, then chains the trimmed first clip,
the masked overlap and the delayed second clip.  `clip1.duration -
transition_duration` raises a `TypeError` when `clip1` has no duration
(`None - float`). -/
noncomputable def AIDynamicTemplate.applyAiTransition (self : AIDynamicTemplate)
    (clip1 clip2 : MClip) : Except PyErr MClip := do
  let td := self.transitionDuration
  let maskFn : ℚ → ℕ → ℕ → ℝ := fun t j i =>
    let progress := t / td
    if self.style = "modern" then
      if linspace 0 1 clip1.w.toNat i < progress then 1 else 0
    else
      let x := linspace (-1) 1 clip1.w.toNat i
      let y := linspace (-1) 1 clip1.h.toNat j
      if (3/2 : ℝ) * (1 - (progress : ℝ)) < Real.sqrt ((x : ℝ)^2 + (y : ℝ)^2)
      then 1 else 0
  let transition := MClip.composite [clip1.setEnd td, (clip2.setStart 0).setEnd td]
  let transition := transition.setMaskFn maskFn
  let d1 ← match clip1.durationOf with
    | some d => pure d
    | none => Except.error PyErr.typeError
  pure (MClip.concatChain [clip1.setEnd (d1 - td), transition, clip2.setStart td])

/-- `AIDynamicTemplate.apply_template`: builds an intro section from
`clips[0]` and `text_content['intro']`, bottom sections from the middle
clips zipped with the sentences of `text_content['main']`, an outro from
`clips[-1]` and `text_content['outro']` — the three lookups raise
`KeyError` when the key is absent — then folds the AI transitions
(`final_clips` keeps length 1 through the loop and the outro transition is
appended) and concatenates.  Arguments are evaluated left to right as in
Python: `clips[0]` (`IndexError` on an empty list) before the `'intro'`
lookup. -/
noncomputable def AIDynamicTemplate.applyTemplate (self : AIDynamicTemplate)
    (clips : List MClip) (audio : Audio) (text : TextContent) :
    Except PyErr MClip := do
  let c0 ← match clips.head? with
    | some c => pure c
    | none => Except.error PyErr.indexError
  let introText ← dictGet text.intro "intro"
  let intro := self.createSection c0 introText "center" "zoom"
  let mainText ← dictGet text.main "main"
  let mainSentences := mainText.splitOn ". "
  let mids := (clips.drop 1).dropLast
  let mainClips := (mids.zip mainSentences).enum.map (fun p =>
    self.createSection p.2.1 p.2.2 "bottom"
      ((["fade", "slide", "typewriter"]).getD (p.1 % 3) "fade"))
  let cLast ← match clips.getLast? with
    | some c => pure c
    | none => Except.error PyErr.indexError
  let outroText ← dictGet text.outro "outro"
  let outro := self.createSection cLast outroText "center" "split"
  let acc ← mainClips.foldlM (fun acc c => self.applyAiTransition acc c) intro
  let lastT ← self.applyAiTransition acc outro
  let video := MClip.concatChain [acc, lastT]
  pure (video.setAudio audio)

/-- State-passing form of `ModernTemplate.apply_template`: the second
component is the value of the caller's `clips` list after the call.  The
Python body only iterates over and reads `clips` (no `append`, `pop`,
`del`, slice or index assignment occurs), so the translation returns the
list it received. -/
noncomputable def ModernTemplate.applyTemplateS (self : VideoTemplate)
    (clips : List MClip) (audio : Audio) (text : TextContent) :
    Except PyErr MClip × List MClip :=
  (ModernTemplate.applyTemplate self clips audio text, clips)

/-- State-passing form of `MinimalTemplate.apply_template`; the source body
never mutates `clips`. -/
noncomputable def MinimalTemplate.applyTemplateS (self : VideoTemplate)
    (clips : List MClip) (audio : Audio) (text : TextContent) :
    Except PyErr MClip × List MClip :=
  (MinimalTemplate.applyTemplate self clips audio text, clips)

/-- State-passing form of `DynamicTemplate.apply_template`; the source body
never mutates `clips`. -/
noncomputable def DynamicTemplate.applyTemplateS (self : VideoTemplate)
    (clips : List MClip) (audio : Audio) (text : TextContent) :
    Except PyErr MClip × List MClip :=
  (DynamicTemplate.applyTemplate self clips audio text, clips)

/-- State-passing form of `AIDynamicTemplate.apply_template`; the source
body reads `clips[0]`, the slice `clips[1:-1]` (a fresh list) and
`clips[-1]`, and never mutates `clips`. -/
noncomputable def AIDynamicTemplate.applyTemplateS (self : AIDynamicTemplate)
    (clips : List MClip) (audio : Audio) (text : TextContent) :
    Except PyErr MClip × List MClip :=
  (AIDynamicTemplate.applyTemplate self clips audio text, clips)

/-- The nine effect names defined by the `effects` dict of
`animate_text`. -/
def definedEffectNames : List String :=
  ["fade", "slide", "zoom", "typewriter", "bounce", "rotate", "wave",
   "glitch", "split"]

/-- C3 counterexample: `create_caption` called with the empty string and a
zero-dimension size does not fail — it returns the corresponding
`TextClip` overlay, contradicting the claimed `RenderError`/`InputError`
rejection. -/
theorem createCaption_empty_text_returns_clip :
    TextEffects.createCaption "" (0, 0) {}
      = MClip.textClip "" (0, 0) 30 "white" "Arial" (some "black") 2 := rfl

/-- C3 amended: `create_caption` performs no validation of `text` or
`size`: for every text (the empty string included) and every size
(non-positive components included) it returns the `TextClip` built from
the given parameters, with absent style keys replaced by the Python
keyword defaults. -/
theorem createCaption_never_fails (text : String) (size : ℤ × ℤ)
    (style : Style) :
    TextEffects.createCaption text size style
      = MClip.textClip text size (style.fontsize.getD 30)
          (style.color.getD "white") (style.font.getD "Arial")
          (some (style.strokeColor.getD "black"))
          (style.strokeWidth.getD 2) := rfl

/-- C5: `animate_text` with an effect name that is not one of the nine
defined names produces exactly the same animated overlay as the `fade`
effect, for every clip, duration and fade sub-duration. -/
theorem animateText_unknown_name_is_fade (c : MClip) (d fd : ℚ)
    (name : String) (h : name ∉ definedEffectNames) :
    TextEffects.animateText c name d fd
      = TextEffects.animateText c "fade" d fd := by
  simp only [definedEffectNames, List.mem_cons, List.not_mem_nil, or_false,
    not_or] at h
  obtain ⟨h1, h2, h3, h4, h5, h6, h7, h8, h9⟩ := h
  simp [TextEffects.animateText, h1, h2, h3, h4, h5, h6, h7, h8, h9]

/-- Witness for C5 at the concrete unknown name `"bogus"`. -/
theorem animateText_unknown_name_is_fade_witness :
    "bogus" ∉ definedEffectNames ∧
    TextEffects.animateText (MClip.vfclip 5 100 200) "bogus" 3 (1/2)
      = TextEffects.animateText (MClip.vfclip 5 100 200) "fade" 3 (1/2) :=
  ⟨by decide, animateText_unknown_name_is_fade _ 3 (1/2) "bogus" (by decide)⟩

/-- C6 counterexample: with an empty caption list,
`add_captions_to_video` does not return the input video itself: the result
is a fresh one-layer composite, not the input clip. -/
theorem addCaptions_empty_not_input :
    TextEffects.addCaptionsToVideo (MClip.vfclip 5 100 200) []
      ≠ Except.ok (MClip.vfclip 5 100 200) := by
  intro h
  exact MClip.noConfusion (Except.ok.inj h)

/-- C6 amended: with an empty caption list, `add_captions_to_video`
returns `CompositeVideoClip([video])`: a composite whose single layer is
the unmodified input video (semantically a no-op, but a new composite
object rather than the input itself). -/
theorem addCaptions_empty_wraps (v : MClip) :
    TextEffects.addCaptionsToVideo v [] = Except.ok (MClip.composite [v]) :=
  rfl

/-- C8: no template mutates the caller's clip list: in the state-passing
translation of each `apply_template`, the list after the call is exactly
the list before it (same length, same elements, same order); the bodies
only iterate over, index and slice `clips`. -/
theorem templates_do_not_mutate_clips (self : VideoTemplate)
    (ai : AIDynamicTemplate) (clips : List MClip) (audio : Audio)
    (text : TextContent) :
    (ModernTemplate.applyTemplateS self clips audio text).2 = clips ∧
    (MinimalTemplate.applyTemplateS self clips audio text).2 = clips ∧
    (DynamicTemplate.applyTemplateS self clips audio text).2 = clips ∧
    (AIDynamicTemplate.applyTemplateS ai clips audio text).2 = clips :=
  ⟨rfl, rfl, rfl, rfl⟩

/-- C9: `create_overlay` with any style other than `'gradient'` and
`'vignette'` takes the final `else` branch: it returns the uniform tinted
`ColorClip` of the given color and opacity (identical to the `'solid'`
style) and never raises on an unknown style name. -/
theorem createOverlay_unknown_style_is_solid (size : ℤ × ℤ)
    (color : String) (opacity : ℚ) (style : String)
    (hg : style ≠ "gradient") (hv : style ≠ "vignette") :
    TextEffects.createOverlay size style color opacity
      = (MClip.colorClip size color).setOpacity opacity ∧
    TextEffects.createOverlay size style color opacity
      = TextEffects.createOverlay size "solid" color opacity := by
  constructor <;> simp [TextEffects.createOverlay, hg, hv]

/-- Witness for C9 at the concrete unknown style `"bogus"`. -/
theorem createOverlay_unknown_style_is_solid_witness :
    ("bogus" : String) ≠ "gradient" ∧ ("bogus" : String) ≠ "vignette" ∧
    (TextEffects.createOverlay (1080, 1920) "bogus" "black" (3/10)
        = (MClip.colorClip (1080, 1920) "black").setOpacity (3/10) ∧
      TextEffects.createOverlay (1080, 1920) "bogus" "black" (3/10)
        = TextEffects.createOverlay (1080, 1920) "solid" "black" (3/10)) :=
  ⟨by decide, by decide,
    createOverlay_unknown_style_is_solid (1080, 1920) "black" (3/10) "bogus"
      (by decide) (by decide)⟩

/-- Classification of one caption-loop iteration: it either raises a
`KeyError` for one of the required keys or appends one overlay. -/
theorem captionStep_cases (video : MClip) (acc : List MClip)
    (cap : CaptionDict) :
    (∃ k, TextEffects.captionStep video acc cap
        = Except.error (PyErr.keyError k)) ∨
    (∃ l, TextEffects.captionStep video acc cap = Except.ok l) := by
  rcases htext : cap.text with - | t
  · exact Or.inl ⟨"text", by simp [TextEffects.captionStep, dictGet, htext,
      Bind.bind, Except.bind, Functor.map, Except.map]⟩
  rcases hstart : cap.start with - | a
  · exact Or.inl ⟨"start", by simp [TextEffects.captionStep, dictGet, htext,
      hstart, Bind.bind, Except.bind, Functor.map, Except.map]⟩
  rcases hstop : cap.stop with - | b
  · exact Or.inl ⟨"end", by simp [TextEffects.captionStep, dictGet, htext,
      hstart, hstop, Bind.bind, Except.bind, Functor.map, Except.map]⟩
  · refine Or.inr ?_
    simp only [TextEffects.captionStep, dictGet, htext, hstart, hstop,
      Bind.bind, Except.bind]
    exact ⟨_, rfl⟩

/-- A caption dict missing one of the required keys makes its loop
iteration raise a `KeyError`. -/
theorem captionStep_missing_key (video : MClip) (acc : List MClip)
    (cap : CaptionDict)
    (h : cap.text = none ∨ cap.start = none ∨ cap.stop = none) :
    ∃ k, TextEffects.captionStep video acc cap
      = Except.error (PyErr.keyError k) := by
  rcases captionStep_cases video acc cap with ⟨k, hk⟩ | ⟨l, hl⟩
  · exact ⟨k, hk⟩
  exfalso
  rcases h with h | h | h
  · simp [TextEffects.captionStep, dictGet, h, Bind.bind, Except.bind,
      Functor.map, Except.map] at hl
  · rcases htext : cap.text with - | t <;>
      simp [TextEffects.captionStep, dictGet, htext, h, Bind.bind,
        Except.bind, Functor.map, Except.map] at hl
  · rcases htext : cap.text with - | t
    · simp [TextEffects.captionStep, dictGet, htext, Bind.bind,
        Except.bind, Functor.map, Except.map] at hl
    · rcases hstart : cap.start with - | a <;>
        simp [TextEffects.captionStep, dictGet, htext, hstart, h, Bind.bind,
          Except.bind, Functor.map, Except.map] at hl

/-- The caption loop raises a `KeyError` as soon as the caption list holds
one dict with a missing required key. -/
theorem captionFold_missing_key (video : MClip) :
    ∀ (caps : List CaptionDict) (acc : List MClip),
      (∃ cap ∈ caps, cap.text = none ∨ cap.start = none ∨ cap.stop = none) →
      ∃ k, caps.foldlM (TextEffects.captionStep video) acc
        = Except.error (PyErr.keyError k) := by
  intro caps
  induction caps with
  | nil =>
      rintro acc ⟨c, hc, -⟩
      exact absurd hc (List.not_mem_nil c)
  | cons c cs ih =>
      rintro acc ⟨cap, hmem, hmiss⟩
      rw [List.foldlM_cons]
      rcases List.mem_cons.mp hmem with rfl | htail
      · obtain ⟨k, hk⟩ := captionStep_missing_key video acc cap hmiss
        exact ⟨k, by rw [hk]; rfl⟩
      · rcases captionStep_cases video acc c with ⟨k, hk⟩ | ⟨l, hl⟩
        · exact ⟨k, by rw [hk]; rfl⟩
        · obtain ⟨k, hk⟩ := ih l ⟨cap, htail, hmiss⟩
          exact ⟨k, by rw [hl]; simpa [Bind.bind, Except.bind] using hk⟩

/-- C10: in `add_captions_to_video` the `position` and `style` keys are
optional (defaulting to the bottom anchor and the empty style) while
`text`, `start` and `end` are required: a caption missing one of the three
makes the call raise a `KeyError` instead of returning a video. -/
theorem addCaptions_required_optional_keys :
    (∀ (video : MClip) (caps : List CaptionDict) (cap : CaptionDict),
       cap ∈ caps →
       (cap.text = none ∨ cap.start = none ∨ cap.stop = none) →
       ∃ k, TextEffects.addCaptionsToVideo video caps
         = Except.error (PyErr.keyError k)) ∧
    (∀ (video : MClip) (s : String) (a b : ℚ),
       TextEffects.addCaptionsToVideo video
           [{ text := some s, start := some a, stop := some b }]
         = Except.ok (MClip.composite [video,
             (((TextEffects.createCaption s video.size {}).setStart a).setEnd
                 b).setPos (PyPos.centerAt ((video.h : ℝ) - 100))])) := by
  constructor
  · intro video caps cap hmem hmiss
    obtain ⟨k, hk⟩ := captionFold_missing_key video caps [video]
      ⟨cap, hmem, hmiss⟩
    exact ⟨k, by simp [TextEffects.addCaptionsToVideo, hk, Bind.bind,
      Except.bind]⟩
  · intro video s a b
    rfl

/-- Witness for C10: one caption missing `start` raises a `KeyError`; one
complete caption without `position`/`style` lands at the bottom anchor
with the default style. -/
theorem addCaptions_required_optional_keys_witness :
    ((⟨some "hi", none, some 2, none, none⟩ : CaptionDict)
        ∈ [(⟨some "hi", none, some 2, none, none⟩ : CaptionDict)]) ∧
    (∃ k, TextEffects.addCaptionsToVideo (MClip.vfclip 5 100 200)
        [(⟨some "hi", none, some 2, none, none⟩ : CaptionDict)]
      = Except.error (PyErr.keyError k)) ∧
    (TextEffects.addCaptionsToVideo (MClip.vfclip 5 100 200)
        [{ text := some "yo", start := some 0, stop := some 2 }]
      = Except.ok (MClip.composite [MClip.vfclip 5 100 200,
          (((TextEffects.createCaption "yo" (MClip.vfclip 5 100 200).size
                {}).setStart 0).setEnd 2).setPos
            (PyPos.centerAt (((MClip.vfclip 5 100 200).h : ℝ) - 100))])) :=
  ⟨List.mem_singleton.mpr rfl,
   addCaptions_required_optional_keys.1 _ _ _ (List.mem_singleton.mpr rfl)
     (Or.inr (Or.inl rfl)),
   addCaptions_required_optional_keys.2 _ "yo" 0 2⟩

/-- C2 counterexample: a Modern render of one 10-second clip with two
captions yields a timeline of total duration `D = 10`, yet caption 1 is
slotted at `[3, 6)` — not at `[1·D/N, 2·D/N) = [5, 10)` as claimed: the
slots are fixed at 3 seconds and do not depend on the timeline. -/
theorem modern_caption_windows_cx :
    (Except.map MClip.durationOf
        (ModernTemplate.applyTemplate ⟨1080, 1920, 60⟩ [MClip.vfclip 10 100 200]
          "music" { captions := some ["a", "b"] })
      = Except.ok (some 10)) ∧
    ((modernCaptionSpecs ["a", "b"]).map (fun c => (c.start, c.stop))
      = [(some 0, some 3), (some 3, some 6)]) ∧
    ¬ ((3 : ℚ) = 1 * 10 / 2) := by
  refine ⟨by with_unfolding_all rfl, by with_unfolding_all rfl, by norm_num⟩

/-- C2 amended: in every template that slots captions (Modern, Minimal,
Dynamic), caption `i` occupies the fixed window `[3·i, 3·(i+1))` seconds,
independent of the timeline's total duration: each slot is 3 seconds long
and slot `i` ends exactly where slot `i+1` starts (contiguous,
non-overlapping), but the slots cover `[0, 3·N)` rather than partitioning
the actual timeline. -/
theorem captionSlots_fixed_three_seconds (caps : List String) (i : ℕ)
    (h : i < caps.length) (self : VideoTemplate) (cap : String) :
    ((modernCaptionSpecs caps)[i]?.map fun c => (c.start, c.stop))
      = some (some ((i : ℚ) * 3), some (((i : ℚ) + 1) * 3)) ∧
    ((minimalCaptionSpecs self.height caps)[i]?.map fun c => (c.start, c.stop))
      = some (some ((i : ℚ) * 3), some (((i : ℚ) + 1) * 3)) ∧
    (dynamicCaptionClip self i cap).startOf = (i : ℚ) * 3 ∧
    MClip.durationOf (dynamicCaptionClip self i cap)
      = some (((i : ℚ) + 1) * 3 - (i : ℚ) * 3) ∧
    ((i : ℚ) + 1) * 3 - (i : ℚ) * 3 = 3 ∧
    ((i : ℚ) + 1) * 3 = ((i + 1 : ℕ) : ℚ) * 3 := by
  refine ⟨?_, ?_, ?_, ?_, by ring, by push_cast; ring⟩
  · simp [modernCaptionSpecs, List.getElem?_map, List.getElem?_enum,
      List.getElem?_eq_getElem h]
  · simp [minimalCaptionSpecs, List.getElem?_map, List.getElem?_enum,
      List.getElem?_eq_getElem h]
  · simp [dynamicCaptionClip, MClip.startOf]
  · simp [dynamicCaptionClip, MClip.durationOf, MClip.startOf]

/-- Witness for C2 (amended) at two captions and index 1. -/
theorem captionSlots_fixed_three_seconds_witness :
    1 < (["a", "b"] : List String).length ∧
    (((modernCaptionSpecs ["a", "b"])[1]?.map fun c => (c.start, c.stop))
        = some (some (((1 : ℕ) : ℚ) * 3), some ((((1 : ℕ) : ℚ) + 1) * 3)) ∧
      ((minimalCaptionSpecs (⟨1080, 1920, 60⟩ : VideoTemplate).height
          ["a", "b"])[1]?.map fun c => (c.start, c.stop))
        = some (some (((1 : ℕ) : ℚ) * 3), some ((((1 : ℕ) : ℚ) + 1) * 3)) ∧
      (dynamicCaptionClip ⟨1080, 1920, 60⟩ 1 "x").startOf = ((1 : ℕ) : ℚ) * 3 ∧
      MClip.durationOf (dynamicCaptionClip ⟨1080, 1920, 60⟩ 1 "x")
        = some ((((1 : ℕ) : ℚ) + 1) * 3 - ((1 : ℕ) : ℚ) * 3) ∧
      (((1 : ℕ) : ℚ) + 1) * 3 - ((1 : ℕ) : ℚ) * 3 = 3 ∧
      (((1 : ℕ) : ℚ) + 1) * 3 = ((1 + 1 : ℕ) : ℚ) * 3) :=
  ⟨by decide,
   captionSlots_fixed_three_seconds ["a", "b"] 1 (by decide) ⟨1080, 1920, 60⟩ "x"⟩

/-- C4 counterexample: template construction accepts the non-positive
dimensions `(0, -5)` without error, and a caption whose timing is
malformed (`start = 5 ≥ 2 = end`) is composited rather than rejected: no
`InputError` check runs before compositing. -/
theorem no_validation_cx :
    (VideoTemplate.init { dimensions := some (0, -5) }
      = Except.ok ⟨0, -5, 60⟩) ∧
    (TextEffects.addCaptionsToVideo (MClip.vfclip 5 100 200)
        [⟨some "a", some 5, some 2, none, none⟩]
      = Except.ok (MClip.composite [MClip.vfclip 5 100 200,
          (((TextEffects.createCaption "a" (100, 200) {}).setStart 5).setEnd
              2).setPos
            (PyPos.centerAt (((MClip.vfclip 5 100 200).h : ℝ) - 100))])) := by
  exact ⟨by with_unfolding_all rfl, by with_unfolding_all rfl⟩

/-- C4 amended: the template pipeline performs no input-validity checks at
all: construction succeeds for arbitrary (hence also non-positive)
dimensions, and caption compositing succeeds for arbitrary (hence also
malformed, `start ≥ end`) timing values whenever the three required keys
are present; no `InputError` is ever raised. -/
theorem no_validation_before_compositing :
    (∀ (wd ht : ℤ) (d : Option ℚ),
       VideoTemplate.init { dimensions := some (wd, ht), duration := d }
         = Except.ok ⟨wd, ht, d.getD 60⟩) ∧
    (∀ (video : MClip) (s : String) (a b : ℚ), ∃ v,
       TextEffects.addCaptionsToVideo video
           [⟨some s, some a, some b, none, none⟩]
         = Except.ok v) :=
  ⟨fun _ _ _ => rfl, fun _ _ _ _ => ⟨_, rfl⟩⟩

/-- C1 counterexample: `AIDynamicTemplate.apply_template` on one clip with
an empty `text_content` does not succeed — it raises `KeyError('intro')`
from the unconditional `text_content['intro']` read. -/
theorem aiDynamic_empty_text_cx :
    AIDynamicTemplate.applyTemplate ⟨⟨1080, 1920, 60⟩, 1/2, 3, "modern"⟩
      [MClip.vfclip 5 1080 1920] "music" {}
      = Except.error (PyErr.keyError "intro") := by
  with_unfolding_all rfl

/-- C1 amended: on a single clip with an empty `text_content`, the Modern,
Minimal and Dynamic templates succeed and return a video whose duration is
the input clip's duration, but AI-Dynamic raises `KeyError('intro')`
because it reads `text_content['intro']` (and `'main'`, `'outro'`)
unconditionally. -/
theorem single_clip_empty_text (self : VideoTemplate)
    (ai : AIDynamicTemplate) (d : ℚ) (wd ht : ℤ) (audio : Audio) :
    (Except.map MClip.durationOf
        (ModernTemplate.applyTemplate self [MClip.vfclip d wd ht] audio {})
      = Except.ok (some d)) ∧
    (Except.map MClip.durationOf
        (MinimalTemplate.applyTemplate self [MClip.vfclip d wd ht] audio {})
      = Except.ok (some d)) ∧
    (Except.map MClip.durationOf
        (DynamicTemplate.applyTemplate self [MClip.vfclip d wd ht] audio {})
      = Except.ok (some d)) ∧
    (AIDynamicTemplate.applyTemplate ai [MClip.vfclip d wd ht] audio {}
      = Except.error (PyErr.keyError "intro")) := by
  refine ⟨?_, ?_, ?_, by with_unfolding_all rfl⟩
  · simp [ModernTemplate.applyTemplate, List.enum, List.enumFrom,
      Bind.bind, Except.bind, pure, Except.pure, Except.map,
      MClip.durationOf, MClip.sumDurations]
  · simp [MinimalTemplate.applyTemplate, Bind.bind, Except.bind, pure,
      Except.pure, Except.map, MClip.durationOf, MClip.sumDurations,
      MClip.latestEnd, MClip.startOf, TextEffects.createOverlay]
  · simp [DynamicTemplate.applyTemplate, List.enum, List.enumFrom,
      Bind.bind, Except.bind, pure, Except.pure, Except.map,
      MClip.durationOf, MClip.sumDurations, MClip.latestEnd, MClip.startOf,
      TextEffects.createOverlay]

/-- `np.linspace(-1, 1, n)` is mirror-antisymmetric up to squaring: the
sample at the mirrored index has the same square (for `n ≤ 1` the mirrored
index is the index itself). -/
theorem linspace_mirror_sq (n i : ℕ) (h : i < n) :
    (linspace (-1) 1 n (n - 1 - i)) ^ 2 = (linspace (-1) 1 n i) ^ 2 := by
  unfold linspace
  by_cases hn : n ≤ 1
  · have hi0 : i = 0 := by omega
    simp [hn, hi0]
  · rw [if_neg hn, if_neg hn]
    have h1 : 1 < n := by omega
    have hcast : ((n - 1 - i : ℕ) : ℚ) = (n : ℚ) - 1 - i := by
      rw [Nat.sub_sub]
      rw [Nat.cast_sub (by omega : 1 + i ≤ n)]
      push_cast
      ring
    rw [hcast]
    have hne : (n : ℚ) - 1 ≠ 0 := by
      have hlt : (1 : ℚ) < (n : ℚ) := by exact_mod_cast h1
      intro hc
      linarith
    field_simp
    ring

/-- C7: the overlay `create_overlay` produces for `style='vignette'` is
the tinted `ColorClip` masked by `vignetteMask`, and that mask equals
`clip(1 - sqrt(x² + y²), 0, 1)` over the normalized `[-1, 1]` meshgrid and
is radially symmetric on the pixel grid: the value at `(x, y)` equals the
value at the mirrored sample `(-x, -y)` and at `(-x, y)` (mirroring index
`i` to `w - 1 - i` negates the `x` sample, and likewise for rows). -/
theorem vignette_formula_and_symmetry (sz : ℤ × ℤ) (color : String)
    (op : ℚ) (w h i j : ℕ) (hi : i < w) (hj : j < h) :
    (TextEffects.createOverlay sz "vignette" color op
      = ((MClip.colorClip sz color).setOpacity op).setMaskFn
          (fun _t j i => vignetteMask sz.1.toNat sz.2.toNat j i)) ∧
    (vignetteMask w h j i
      = min (max (1 - Real.sqrt (((linspace (-1) 1 w i : ℚ) : ℝ) ^ 2
          + ((linspace (-1) 1 h j : ℚ) : ℝ) ^ 2)) 0) 1) ∧
    vignetteMask w h j i = vignetteMask w h (h - 1 - j) (w - 1 - i) ∧
    vignetteMask w h j i = vignetteMask w h j (w - 1 - i) := by
  have hx : ((linspace (-1) 1 w (w - 1 - i) : ℚ) : ℝ) ^ 2
      = ((linspace (-1) 1 w i : ℚ) : ℝ) ^ 2 := by
    exact_mod_cast congrArg (fun q : ℚ => (q : ℝ)) (linspace_mirror_sq w i hi)
  have hy : ((linspace (-1) 1 h (h - 1 - j) : ℚ) : ℝ) ^ 2
      = ((linspace (-1) 1 h j : ℚ) : ℝ) ^ 2 := by
    exact_mod_cast congrArg (fun q : ℚ => (q : ℝ)) (linspace_mirror_sq h j hj)
  refine ⟨by simp [TextEffects.createOverlay], rfl, ?_, ?_⟩
  · unfold vignetteMask
    rw [hx, hy]
  · unfold vignetteMask
    rw [hx]

/-- Witness for C7 on a 4×3 pixel grid at sample `(i, j) = (1, 2)`. -/
theorem vignette_formula_and_symmetry_witness :
    1 < 4 ∧ 2 < 3 ∧
    ((TextEffects.createOverlay (4, 3) "vignette" "black" (3/10)
        = ((MClip.colorClip (4, 3) "black").setOpacity (3/10)).setMaskFn
            (fun _t j i =>
              vignetteMask ((4 : ℤ), (3 : ℤ)).1.toNat
                ((4 : ℤ), (3 : ℤ)).2.toNat j i)) ∧
      (vignetteMask 4 3 2 1
        = min (max (1 - Real.sqrt (((linspace (-1) 1 4 1 : ℚ) : ℝ) ^ 2
            + ((linspace (-1) 1 3 2 : ℚ) : ℝ) ^ 2)) 0) 1) ∧
      vignetteMask 4 3 2 1 = vignetteMask 4 3 (3 - 1 - 2) (4 - 1 - 1) ∧
      vignetteMask 4 3 2 1 = vignetteMask 4 3 2 (4 - 1 - 1)) :=
  ⟨by decide, by decide,
   vignette_formula_and_symmetry (4, 3) "black" (3/10) 4 3 1 2
     (by decide) (by decide)⟩
